import Mathlib

/-!
Shallow embedding of `research_agent.py` (class `ResearchAgent`) and proofs of
the specification claims about it.

Modelling conventions:
* Python text is `List Char` (Python `len` counts code points, as does list length).
* Similarity scores and thresholds (Python floats) are modelled as `Rat`; the
  claims only use the order structure of scores, which `Rat` models faithfully
  for the non-NaN values an index returns.
* External collaborators (the FAISS index's `similarity_search_with_score`, the
  QA chain's language model, the filesystem, the PDF extractor) are parameters
  of the operations that use them, so theorems quantify over their behaviour.
* Python exceptions become `Except AgentError`; an operation that raises before
  mutating anything is an `.error` result carrying no state, so state
  preservation on error is by construction, matching the source where every
  `raise` precedes the first mutation.
* Calls to the language-model collaborator are made observable: `answer_question`
  returns the list of `LlmCall`s it performed.
* Filesystem writes performed by `save_vector_database` are made observable as a
  list of `FsWrite` effects.
-/

/-- One chunk record as stored in `self.documents`:
`{"content": chunk, "metadata": {"source": source, "chunk": i}}`. -/
structure ChunkRec where
  content : List Char
  source : String
  chunk : Nat
deriving DecidableEq, Repr

/-- Document-level metadata stored in `self.document_metadata[file_name]`:
`{"path": ..., "type": "pdf"|"text", "pages": ...}` (`pages` only for PDFs). -/
structure DocMeta where
  path : String
  type : String
  pages : Option Nat
deriving DecidableEq, Repr

/-- Python exceptions raised by `ResearchAgent` methods.  `fileNotFound` is
`FileNotFoundError`, `valueError` is `ValueError`, `externalError` stands for an
exception propagated out of an external collaborator (e.g. PyPDF2). -/
inductive AgentError where
  | fileNotFound (msg : String)
  | valueError (msg : String)
  | externalError (msg : String)
deriving DecidableEq, Repr

/-- An observable filesystem write performed by `save_vector_database`:
`os.makedirs(path, exist_ok=True)` and `self.vectordb.save_local(path)`. -/
inductive FsWrite where
  | makedirs (path : String)
  | saveLocal (path : String)
deriving DecidableEq, Repr

/-- One invocation of the language-model collaborator:
`self.chain.run(input_documents=relevant_docs, question=question)`. -/
structure LlmCall where
  inputs : List ChunkRec
  question : String
deriving DecidableEq, Repr

/-- The dictionary returned by `answer_question`.  The two return sites build
dictionaries with different keys: the empty-retrieval branch has keys
`answer`, `sources`, `confidence`; the normal branch has `answer`, `sources`,
`num_relevant_chunks` (plus token counts from the external callback, not
modelled).  Absent keys are `none`. -/
structure AnswerResult where
  answer : String
  sources : List String
  num_relevant_chunks : Option Nat
  confidence : Option Rat
deriving DecidableEq, Repr

/-- The vector database holds, for each indexed chunk, its text and metadata:
`FAISS.from_texts(texts=..., embedding=..., metadatas=...)` is embedded as the
list of chunk records it was built from (the embedding vectors are owned by the
external collaborator and only observable through the search parameter). -/
abbrev VectorDB : Type := List ChunkRec

/-- The mutable state of a `ResearchAgent` object: `self.documents`,
`self.document_metadata` (a Python dict, embedded as an insertion-ordered
association list with unique keys), `self.vectordb`, the conversation
`self.memory` (a list of (question, answer) turns), and `self.vector_db_path`. -/
structure AgentState where
  documents : List ChunkRec
  document_metadata : List (String × DocMeta)
  vectordb : Option VectorDB
  memory : List (String × String)
  vector_db_path : Option String
deriving DecidableEq, Repr

/-- The state right after `__init__` (with a given `vector_db_path` argument):
empty document list, empty metadata dict, no vector database, empty memory. -/
def mkAgent (vector_db_path : Option String) : AgentState :=
  { documents := []
    document_metadata := []
    vectordb := none
    memory := []
    vector_db_path := vector_db_path }

/-- `__init__` with the default `vector_db_path=None`. -/
def initialAgentState : AgentState := mkAgent none

/-- Python dict assignment `d[k] = v`: overwrites in place if `k` is present,
otherwise appends a new entry. -/
def dictInsert : List (String × DocMeta) → String → DocMeta → List (String × DocMeta)
  | [], k, v => [(k, v)]
  | (k0, v0) :: rest, k, v =>
      if k0 = k then (k0, v) :: rest else (k0, v0) :: dictInsert rest k v

/-- `os.path.basename`: the final path component (text after the last slash). -/
def basename (p : String) : String :=
  String.mk ((p.toList.reverse.takeWhile (fun c => c ≠ '/')).reverse)

/-- Modelled from the spec: the repository delegates chunking to langchain's
`RecursiveCharacterTextSplitter`, whose code is not part of this repository.
Following spec section 4.1, the splitter greedily emits windows of at most
`chunkSize` characters, each next window starting `overlap` characters before
the end of the previous one; text of length at most `chunkSize` yields a single
chunk and empty text yields no chunks.  `fuel` bounds the recursion (the caller
supplies `text.length + 1`, which is always sufficient when
`overlap < chunkSize`). -/
def splitChunksFuel (chunkSize overlap : Nat) : Nat → List Char → List (List Char)
  | 0, _ => []
  | fuel + 1, text =>
      if text.isEmpty then []
      else if text.length ≤ chunkSize then [text]
      else text.take chunkSize ::
        splitChunksFuel chunkSize overlap fuel (text.drop (chunkSize - overlap))

/-- Modelled from the spec: `split_text` of the external splitter (see
`splitChunksFuel`). -/
def splitChunks (chunkSize overlap : Nat) (text : List Char) : List (List Char) :=
  splitChunksFuel chunkSize overlap (text.length + 1) text

/-- The loop `for i, chunk in enumerate(chunks): self.documents.append(...)`
inside `_split_and_add_text`, started at index `i`. -/
def mkRecords (source : String) : Nat → List (List Char) → List ChunkRec
  | _, [] => []
  | i, c :: cs => ⟨c, source, i⟩ :: mkRecords source (i + 1) cs

/-- `_split_and_add_text(text, source)`: split the text and append one record
per chunk, indexed from zero, to `self.documents`. -/
def split_and_add_text (chunkSize overlap : Nat) (st : AgentState)
    (text : List Char) (source : String) : AgentState :=
  { st with documents := st.documents ++ mkRecords source 0 (splitChunks chunkSize overlap text) }

/-- A sequence of ingestions at the `_split_and_add_text` level: each pair is
(source name, document text), processed in order starting from the initial
state. -/
def ingestTexts (chunkSize overlap : Nat) (docs : List (String × List Char)) : AgentState :=
  docs.foldl (fun st p => split_and_add_text chunkSize overlap st p.2 p.1) initialAgentState

/-- `process_text_file(text_path)`.  `exists_` embeds `os.path.exists` and
`readFile` the (total, for existing paths) file read; the metadata entry is
written and then the text is chunked and appended.  A missing path raises
`FileNotFoundError` before any mutation. -/
def process_text_file (readFile : String → List Char) (exists_ : String → Bool)
    (chunkSize overlap : Nat) (st : AgentState) (text_path : String) :
    Except AgentError AgentState :=
  if exists_ text_path then
    let text := readFile text_path
    let file_name := basename text_path
    let st1 := { st with
      document_metadata := dictInsert st.document_metadata file_name
        ⟨text_path, "text", none⟩ }
    .ok (split_and_add_text chunkSize overlap st1 text file_name)
  else
    .error (.fileNotFound ( "Text file not found: " ++ text_path))

/-- `process_pdf(pdf_path)`.  `extract` embeds PyPDF2 text extraction returning
the concatenated page text and the page count, or `none` when the external
reader raises (that exception is re-raised by the `except` clause before any
mutation).  A missing path raises `FileNotFoundError` before any mutation. -/
def process_pdf (extract : String → Option (List Char × Nat)) (exists_ : String → Bool)
    (chunkSize overlap : Nat) (st : AgentState) (pdf_path : String) :
    Except AgentError AgentState :=
  if exists_ pdf_path then
    match extract pdf_path with
    | none => .error (.externalError ( "Error processing PDF: " ++ pdf_path))
    | some (text, pages) =>
        let file_name := basename pdf_path
        let st1 := { st with
          document_metadata := dictInsert st.document_metadata file_name
            ⟨pdf_path, "pdf", some pages⟩ }
        .ok (split_and_add_text chunkSize overlap st1 text file_name)
  else
    .error (.fileNotFound ( "PDF file not found: " ++ pdf_path))

/-- `save_vector_database(path)`: with no vector database it logs a warning and
returns (no write, no state change); otherwise it creates the directory and
saves the index there (two external filesystem effects, no state change). -/
def save_vector_database (st : AgentState) (path : String) :
    AgentState × List FsWrite :=
  match st.vectordb with
  | none => (st, [])
  | some _ => (st, [.makedirs path, .saveLocal path])

/-- `build_vector_database()`: with no documents it logs a warning and returns
without building anything; otherwise it builds the index over all stored chunks
(`FAISS.from_texts` over their texts and metadatas, embedded as the record list
itself) and, when `self.vector_db_path` is set (Python truthiness: a non-empty
string), saves it there.  The `Except` result type records that the method can
propagate exceptions, though neither branch modelled here raises. -/
def build_vector_database (st : AgentState) :
    Except AgentError (AgentState × List FsWrite) :=
  if st.documents.isEmpty then
    .ok (st, [])
  else
    let st1 := { st with vectordb := some st.documents }
    match st1.vector_db_path with
    | some p => if p.isEmpty then .ok (st1, []) else .ok (save_vector_database st1 p)
    | none => .ok (st1, [])

/-- `load_vector_database(path)`: a missing path raises `FileNotFoundError`;
otherwise the external `FAISS.load_local` result (parameter `loadLocal`)
becomes the current database and the path is remembered. -/
def load_vector_database (loadLocal : String → VectorDB) (exists_ : String → Bool)
    (st : AgentState) (path : String) : Except AgentError AgentState :=
  if exists_ path then
    .ok { st with vectordb := some (loadLocal path), vector_db_path := some path }
  else
    .error (.fileNotFound ( "Vector database path not found: " ++ path))

/-- Python `set.add` on the `sources` accumulator, embedded with
insertion-order deduplication (the claims only use the set's membership). -/
def addSource (l : List String) (s : String) : List String :=
  if s ∈ l then l else l ++ [s]

/-- One iteration of the filtering loop in `answer_question`:
`if score <= similarity_threshold: relevant_docs.append(doc); sources.add(...)`. -/
def filterStep (threshold : Rat) (acc : List ChunkRec × List String)
    (p : ChunkRec × Rat) : List ChunkRec × List String :=
  if p.2 ≤ threshold then (acc.1 ++ [p.1], addSource acc.2 p.1.source) else acc

/-- The whole `for doc, score in docs:` loop of `answer_question`, producing
the `relevant_docs` list and the `sources` set. -/
def filterLoop (threshold : Rat) (docs : List (ChunkRec × Rat)) :
    List ChunkRec × List String :=
  docs.foldl (filterStep threshold) ([], [])

/-- `answer_question(question, similarity_threshold, max_docs)`.
`search` embeds the external `similarity_search_with_score` method of the
vector database (a list of (chunk, score) pairs); `llm` embeds the QA chain's
language model.  The chain carries `self.memory`, to which the new
(question, answer) turn is appended on a successful generation (the chain's
memory write is langchain behaviour, modelled from the spec's Answer
Synthesizer contract).  The returned `List LlmCall` records every invocation of
the language-model collaborator. -/
def answer_question (search : VectorDB → String → Nat → List (ChunkRec × Rat))
    (llm : List ChunkRec → String → String) (st : AgentState)
    (question : String) (similarity_threshold : Rat) (max_docs : Nat) :
    Except AgentError (AnswerResult × AgentState × List LlmCall) :=
  match st.vectordb with
  | none => .error (.valueError "Vector database not built. Process documents first.")
  | some db =>
      let docs := search db question max_docs
      let rel := filterLoop similarity_threshold docs
      if rel.1.isEmpty then
        .ok ({ answer := "I couldn\x27t find relevant information to answer this question."
               sources := []
               num_relevant_chunks := none
               confidence := some 0 }, st, [])
      else
        let ans := llm rel.1 question
        .ok ({ answer := ans
               sources := rel.2
               num_relevant_chunks := some rel.1.length
               confidence := none },
             { st with memory := st.memory ++ [(question, ans)] },
             [⟨rel.1, question⟩])

/-- `clear_memory()`: `self.memory.clear()`. -/
def clear_memory (st : AgentState) : AgentState :=
  { st with memory := [] }

/-- The language-model invocations performed by an `answer_question` result
(none when the call raised). -/
def llmCalls (r : Except AgentError (AnswerResult × AgentState × List LlmCall)) :
    List LlmCall :=
  match r with
  | .error _ => []
  | .ok (_, _, calls) => calls

/-- The provenance pairs (source, chunk index) of a record list. -/
def provPairs (l : List ChunkRec) : List (String × Nat) :=
  l.map fun c => (c.source, c.chunk)

/- Concrete objects for witnesses and counterexamples. -/

/-- A concrete chunk record. -/
def chunkA : ChunkRec := ⟨['h', 'i'], "a.txt", 0⟩

/-- A one-chunk vector database. -/
def dbOne : VectorDB := [chunkA]

/-- An agent state with a built index over `dbOne`. -/
def stIndexed : AgentState := { initialAgentState with vectordb := some dbOne }

/-- A search collaborator that returns every indexed chunk with score 0. -/
def searchHit : VectorDB → String → Nat → List (ChunkRec × Rat) :=
  fun db _ _ => db.map fun c => (c, 0)

/-- A search collaborator that returns every indexed chunk with score 1. -/
def searchMiss : VectorDB → String → Nat → List (ChunkRec × Rat) :=
  fun db _ _ => db.map fun c => (c, 1)

/-- A constant language-model collaborator. -/
def llmConst : List ChunkRec → String → String := fun _ _ => "generated"

/-- A filesystem on which every path exists. -/
def allExists : String → Bool := fun _ => true

/-- A filesystem on which no path exists. -/
def noneExists : String → Bool := fun _ => false

/-- A file reader that always yields the two-character text "hi". -/
def readHi : String → List Char := fun _ => ['h', 'i']

/-- A PDF extractor that always yields the text "hi" with one page. -/
def extractHi : String → Option (List Char × Nat) := fun _ => some (['h', 'i'], 1)

/-- A loader producing the one-chunk database. -/
def loadOne : String → VectorDB := fun _ => dbOne

/-- The state after ingesting the text file "a.txt" (content "hi") twice with
the default chunking configuration, starting from the initial state. -/
def reingestState : AgentState :=
  match process_text_file readHi allExists 1000 200 initialAgentState "a.txt" with
  | .ok st1 =>
      match process_text_file readHi allExists 1000 200 st1 "a.txt" with
      | .ok st2 => st2
      | .error _ => st1
  | .error _ => initialAgentState

/-- The fixed dictionary returned by the empty-retrieval branch of
`answer_question`. -/
def noRelevantResult : AnswerResult :=
  { answer := "I couldn\x27t find relevant information to answer this question."
    sources := []
    num_relevant_chunks := none
    confidence := some 0 }

/- Helper lemmas about the filtering loop of `answer_question`. -/

/-- The `relevant_docs` accumulator of the loop equals the filter of the search
results by the threshold comparison, projected to the chunks. -/
theorem foldl_filterStep_fst (threshold : Rat) (docs : List (ChunkRec × Rat))
    (acc : List ChunkRec × List String) :
    (docs.foldl (filterStep threshold) acc).1
      = acc.1 ++ (docs.filter (fun p => p.2 ≤ threshold)).map Prod.fst := by
  induction docs generalizing acc with
  | nil => simp
  | cons p rest ih =>
      by_cases h : p.2 ≤ threshold
      · simp [filterStep, h, ih]
      · simp [filterStep, h, ih]

/-- Membership in the result of a Python `set.add`. -/
theorem mem_addSource (l : List String) (s t : String) :
    t ∈ addSource l s ↔ t ∈ l ∨ t = s := by
  unfold addSource
  by_cases h : s ∈ l
  · simp only [if_pos h]
    exact ⟨Or.inl, fun h1 => h1.elim id (fun ht => ht ▸ h)⟩
  · simp [if_neg h]

/-- `set.add` preserves deduplication. -/
theorem addSource_nodup (l : List String) (s : String) (h : l.Nodup) :
    (addSource l s).Nodup := by
  unfold addSource
  by_cases hs : s ∈ l
  · simpa [hs] using h
  · simp only [if_neg hs, List.nodup_append]
    exact ⟨h, List.nodup_singleton s, by simpa [List.disjoint_singleton] using hs⟩

/-- The `sources` accumulator of the loop stays deduplicated. -/
theorem foldl_filterStep_snd_nodup (threshold : Rat) (docs : List (ChunkRec × Rat))
    (acc : List ChunkRec × List String) (h : acc.2.Nodup) :
    (docs.foldl (filterStep threshold) acc).2.Nodup := by
  induction docs generalizing acc with
  | nil => exact h
  | cons p rest ih =>
      rw [List.foldl_cons]
      apply ih
      unfold filterStep
      by_cases hp : p.2 ≤ threshold
      · simpa [hp] using addSource_nodup acc.2 p.1.source h
      · simpa [hp] using h

/-- Membership in the `sources` accumulator: exactly the source names of the
chunks surviving the threshold filter (plus whatever was already accumulated). -/
theorem foldl_filterStep_snd_mem (threshold : Rat) (docs : List (ChunkRec × Rat))
    (acc : List ChunkRec × List String) (s : String) :
    s ∈ (docs.foldl (filterStep threshold) acc).2
      ↔ s ∈ acc.2 ∨
        s ∈ (docs.filter (fun p => p.2 ≤ threshold)).map (fun p => p.1.source) := by
  induction docs generalizing acc with
  | nil => simp
  | cons p rest ih =>
      rw [List.foldl_cons]
      by_cases h : p.2 ≤ threshold
      · rw [ih]
        simp only [filterStep, if_pos h, mem_addSource, List.filter_cons,
          decide_eq_true_eq, h, if_pos, List.map_cons, List.mem_cons]
        tauto
      · rw [ih]
        simp [filterStep, h]

/-- `answer_question` on a state with a built database, reduced to the two
return branches. -/
theorem answer_question_some
    (search : VectorDB → String → Nat → List (ChunkRec × Rat))
    (llm : List ChunkRec → String → String) (st : AgentState) (db : VectorDB)
    (question : String) (threshold : Rat) (max_docs : Nat)
    (hdb : st.vectordb = some db) :
    answer_question search llm st question threshold max_docs =
      (if (filterLoop threshold (search db question max_docs)).1.isEmpty then
        .ok (noRelevantResult, st, [])
      else
        .ok ({ answer := llm (filterLoop threshold (search db question max_docs)).1 question
               sources := (filterLoop threshold (search db question max_docs)).2
               num_relevant_chunks :=
                 some (filterLoop threshold (search db question max_docs)).1.length
               confidence := none },
             { st with memory := st.memory ++
                 [(question, llm (filterLoop threshold (search db question max_docs)).1 question)] },
             [⟨(filterLoop threshold (search db question max_docs)).1, question⟩])) := by
  unfold answer_question
  rw [hdb]
  rfl

/-- Claim C4: for every question, calling `answer_question` while the vector
database is absent fails with the index-not-built error (the
`ValueError("Vector database not built. Process documents first.")` raised on
line 266) and produces no answer: the call's result is that error, not an
answer dictionary. -/
theorem answer_question_requires_index
    (search : VectorDB → String → Nat → List (ChunkRec × Rat))
    (llm : List ChunkRec → String → String) (st : AgentState)
    (question : String) (threshold : Rat) (max_docs : Nat)
    (h : st.vectordb = none) :
    answer_question search llm st question threshold max_docs
      = .error (.valueError "Vector database not built. Process documents first.") := by
  unfold answer_question
  rw [h]

/-- Witness for C4: the freshly initialized agent has no vector database and
`answer_question` on it fails with the index-not-built error. -/
theorem answer_question_requires_index_witness :
    initialAgentState.vectordb = none ∧
    answer_question searchHit llmConst initialAgentState "q" 1 5
      = .error (.valueError "Vector database not built. Process documents first.") :=
  ⟨rfl, answer_question_requires_index searchHit llmConst initialAgentState "q" 1 5 rfl⟩

/-- Claim C9: `clear_memory` empties the conversation turn history and leaves
the document store, the document metadata mapping, the vector index and the
saved path unchanged. -/
theorem clear_memory_frame (st : AgentState) :
    (clear_memory st).memory = [] ∧
    (clear_memory st).documents = st.documents ∧
    (clear_memory st).document_metadata = st.document_metadata ∧
    (clear_memory st).vectordb = st.vectordb ∧
    (clear_memory st).vector_db_path = st.vector_db_path :=
  ⟨rfl, rfl, rfl, rfl, rfl⟩

/-- Claim C10: calling `save_vector_database` when no vector database has been
built is a silent no-op: it returns normally, performs no filesystem write, and
leaves the agent state unchanged. -/
theorem save_without_db_noop (st : AgentState) (path : String)
    (h : st.vectordb = none) :
    save_vector_database st path = (st, []) := by
  unfold save_vector_database
  rw [h]

/-- Witness for C10: saving from the freshly initialized agent writes nothing
and changes nothing. -/
theorem save_without_db_noop_witness :
    initialAgentState.vectordb = none ∧
    save_vector_database initialAgentState "db" = (initialAgentState, []) :=
  ⟨rfl, save_without_db_noop initialAgentState "db" rfl⟩

/-- Claim C8: for every path that does not exist, `process_pdf`,
`process_text_file` and `load_vector_database` each fail immediately with a
`FileNotFoundError`; the failing result carries no successor state, so the
document store, document metadata and vector database of the caller's state are
untouched (each `raise` in the source precedes the first mutation). -/
theorem missing_path_fails
    (readFile : String → List Char) (extract : String → Option (List Char × Nat))
    (loadLocal : String → VectorDB) (exists_ : String → Bool)
    (chunkSize overlap : Nat) (st : AgentState) (path : String)
    (h : exists_ path = false) :
    process_text_file readFile exists_ chunkSize overlap st path
      = .error (.fileNotFound ( "Text file not found: " ++ path)) ∧
    process_pdf extract exists_ chunkSize overlap st path
      = .error (.fileNotFound ( "PDF file not found: " ++ path)) ∧
    load_vector_database loadLocal exists_ st path
      = .error (.fileNotFound ( "Vector database path not found: " ++ path)) := by
  unfold process_text_file process_pdf load_vector_database
  rw [h]
  simp

/-- Witness for C8: on a filesystem where no path exists, all three loaders
fail with `FileNotFoundError` on the initial agent state. -/
theorem missing_path_fails_witness :
    noneExists "missing" = false ∧
    (process_text_file readHi noneExists 1000 200 initialAgentState "missing"
      = .error (.fileNotFound ( "Text file not found: " ++ "missing")) ∧
    process_pdf extractHi noneExists 1000 200 initialAgentState "missing"
      = .error (.fileNotFound ( "PDF file not found: " ++ "missing")) ∧
    load_vector_database loadOne noneExists initialAgentState "missing"
      = .error (.fileNotFound ( "Vector database path not found: " ++ "missing"))) :=
  ⟨rfl, missing_path_fails readHi extractHi loadOne noneExists 1000 200
    initialAgentState "missing" rfl⟩

/-- Counterexample to claim C3 as stated: building the vector database on the
empty initial store does not fail with any error — the call returns normally
(`.ok`) with the state unchanged and no index built, whereas the claim says the
call fails with `EmptyCorpusError`. -/
theorem build_empty_returns_ok :
    build_vector_database initialAgentState = .ok (initialAgentState, []) ∧
    initialAgentState.vectordb = none :=
  ⟨rfl, rfl⟩

/-- Claim C3 (amended): calling `build_vector_database` when the document store
holds zero chunks is a silent no-op — it logs a warning and returns without
raising, builds no index and writes nothing, so the vector database field is
exactly what it was before (in particular a zero-chunk index never appears
ready). -/
theorem build_empty_silent_noop (st : AgentState) (h : st.documents = []) :
    build_vector_database st = .ok (st, []) := by
  unfold build_vector_database
  rw [h]
  rfl

/-- Witness for the amended C3: building on the freshly initialized agent is a
no-op that leaves the database absent. -/
theorem build_empty_silent_noop_witness :
    initialAgentState.documents = [] ∧
    build_vector_database initialAgentState = .ok (initialAgentState, []) :=
  ⟨rfl, build_empty_silent_noop initialAgentState rfl⟩

/-- Counterexample to claim C2 as stated: on a concrete indexed state where no
retrieved chunk passes the threshold (score 1 against threshold 0),
`answer_question` does short-circuit with the fixed text, the empty source list
and no language-model call — but the returned dictionary carries
`confidence: 0.0` and no relevant-chunk-count entry at all, not a
relevant-chunk count of 0. -/
theorem answer_question_empty_count_missing :
    answer_question searchMiss llmConst stIndexed "q" 0 5
      = .ok (noRelevantResult, stIndexed, []) ∧
    noRelevantResult.num_relevant_chunks ≠ some 0 ∧
    noRelevantResult.confidence = some 0 := by
  refine ⟨rfl, ?_, rfl⟩
  simp [noRelevantResult]

/-- Claim C2 (amended): whenever no retrieved chunk passes the similarity
threshold, `answer_question` short-circuits: it returns the fixed "no relevant
information" answer text, an empty source list and a confidence of 0.0 (the
returned dictionary has no relevant-chunk-count entry), leaves the state
unchanged, and never invokes the language-model collaborator. -/
theorem answer_question_empty_short_circuit
    (search : VectorDB → String → Nat → List (ChunkRec × Rat))
    (llm : List ChunkRec → String → String) (st : AgentState) (db : VectorDB)
    (question : String) (threshold : Rat) (max_docs : Nat)
    (hdb : st.vectordb = some db)
    (hempty : (filterLoop threshold (search db question max_docs)).1 = []) :
    answer_question search llm st question threshold max_docs
      = .ok (noRelevantResult, st, []) := by
  rw [answer_question_some search llm st db question threshold max_docs hdb]
  simp [hempty]

/-- Witness for the amended C2: with every score above the threshold, the
short-circuit fires on a concrete indexed state. -/
theorem answer_question_empty_short_circuit_witness :
    stIndexed.vectordb = some dbOne ∧
    (filterLoop 0 (searchMiss dbOne "q" 5)).1 = [] ∧
    answer_question searchMiss llmConst stIndexed "q" 0 5
      = .ok (noRelevantResult, stIndexed, []) :=
  ⟨rfl, by decide,
   answer_question_empty_short_circuit searchMiss llmConst stIndexed dbOne
     "q" 0 5 rfl (by decide)⟩

/-- Claim C1: for every question, threshold and list of (chunk, score) pairs
returned by the vector database's search, the `relevant_docs` list assembled by
`answer_question` is exactly the search results whose score satisfies
`score <= similarity_threshold`, in order; and every chunk handed to the
language-model collaborator comes with such a passing score — no chunk whose
score exceeds the threshold is ever passed to answer synthesis. -/
theorem answer_question_threshold_filter
    (search : VectorDB → String → Nat → List (ChunkRec × Rat))
    (llm : List ChunkRec → String → String) (st : AgentState) (db : VectorDB)
    (question : String) (threshold : Rat) (max_docs : Nat)
    (hdb : st.vectordb = some db) :
    (filterLoop threshold (search db question max_docs)).1
      = ((search db question max_docs).filter (fun p => p.2 ≤ threshold)).map Prod.fst ∧
    ∀ call ∈ llmCalls (answer_question search llm st question threshold max_docs),
      call.inputs = (filterLoop threshold (search db question max_docs)).1 ∧
      ∀ c ∈ call.inputs,
        ∃ score, (c, score) ∈ search db question max_docs ∧ score ≤ threshold := by
  have hfst := foldl_filterStep_fst threshold (search db question max_docs) ([], [])
  have hfst' : (filterLoop threshold (search db question max_docs)).1
      = ((search db question max_docs).filter (fun p => p.2 ≤ threshold)).map Prod.fst := by
    simpa [filterLoop] using hfst
  refine ⟨hfst', ?_⟩
  intro call hcall
  rw [answer_question_some search llm st db question threshold max_docs hdb] at hcall
  unfold llmCalls at hcall
  by_cases hemp : (filterLoop threshold (search db question max_docs)).1.isEmpty
  · simp [hemp] at hcall
  · simp only [Bool.not_eq_true] at hemp
    simp only [hemp, Bool.false_eq_true, if_false, List.mem_singleton] at hcall
    subst hcall
    refine ⟨rfl, ?_⟩
    intro c hc
    rw [hfst'] at hc
    rcases List.mem_map.1 hc with ⟨p, hp, hpc⟩
    rcases List.mem_filter.1 hp with ⟨hmem, hle⟩
    exact ⟨p.2, by rw [← hpc]; simpa using hmem, by simpa using hle⟩

/-- Witness for C1: on a concrete indexed state where the single search result
passes the threshold, the relevant list is the filtered search result and the
single language-model call receives exactly it. -/
theorem answer_question_threshold_filter_witness :
    stIndexed.vectordb = some dbOne ∧
    ((filterLoop 1 (searchHit dbOne "q" 5)).1
      = ((searchHit dbOne "q" 5).filter (fun p => p.2 ≤ 1)).map Prod.fst ∧
    ∀ call ∈ llmCalls (answer_question searchHit llmConst stIndexed "q" 1 5),
      call.inputs = (filterLoop 1 (searchHit dbOne "q" 5)).1 ∧
      ∀ c ∈ call.inputs,
        ∃ score, (c, score) ∈ searchHit dbOne "q" 5 ∧ score ≤ 1) :=
  ⟨rfl, answer_question_threshold_filter searchHit llmConst stIndexed dbOne "q" 1 5 rfl⟩

/-- Claim C5: whenever at least one chunk passes the threshold,
`answer_question` submits exactly the surviving chunks and the question to the
language-model collaborator (one call), appends the new (question, answer) turn
to the conversation memory, and returns the generated answer text together with
the deduplicated source document names of the surviving chunks and the count of
those chunks. -/
theorem answer_question_with_relevant
    (search : VectorDB → String → Nat → List (ChunkRec × Rat))
    (llm : List ChunkRec → String → String) (st : AgentState) (db : VectorDB)
    (question : String) (threshold : Rat) (max_docs : Nat)
    (hdb : st.vectordb = some db)
    (hne : (filterLoop threshold (search db question max_docs)).1 ≠ []) :
    answer_question search llm st question threshold max_docs
      = .ok ({ answer := llm (filterLoop threshold (search db question max_docs)).1 question
               sources := (filterLoop threshold (search db question max_docs)).2
               num_relevant_chunks :=
                 some (filterLoop threshold (search db question max_docs)).1.length
               confidence := none },
             { st with memory := st.memory ++
                 [(question,
                   llm (filterLoop threshold (search db question max_docs)).1 question)] },
             [⟨(filterLoop threshold (search db question max_docs)).1, question⟩]) ∧
    (filterLoop threshold (search db question max_docs)).2.Nodup ∧
    (∀ s, s ∈ (filterLoop threshold (search db question max_docs)).2
        ↔ s ∈ (filterLoop threshold (search db question max_docs)).1.map ChunkRec.source) := by
  refine ⟨?_, ?_, ?_⟩
  · rw [answer_question_some search llm st db question threshold max_docs hdb]
    simp [List.isEmpty_iff, hne]
  · exact foldl_filterStep_snd_nodup threshold (search db question max_docs) ([], [])
      List.nodup_nil
  · intro s
    have hmem := foldl_filterStep_snd_mem threshold (search db question max_docs) ([], []) s
    have hfst : (filterLoop threshold (search db question max_docs)).1
        = ((search db question max_docs).filter (fun p => p.2 ≤ threshold)).map Prod.fst := by
      simpa [filterLoop] using foldl_filterStep_fst threshold (search db question max_docs) ([], [])
    rw [hfst]
    simpa [filterLoop, List.map_map, Function.comp] using hmem

/-- Witness for C5: on a concrete indexed state where the single search result
passes the threshold, the full answer dictionary, the memory append and the
single language-model call are as stated. -/
theorem answer_question_with_relevant_witness :
    stIndexed.vectordb = some dbOne ∧
    (filterLoop 1 (searchHit dbOne "q" 5)).1 ≠ [] ∧
    (answer_question searchHit llmConst stIndexed "q" 1 5
      = .ok ({ answer := llmConst (filterLoop 1 (searchHit dbOne "q" 5)).1 "q"
               sources := (filterLoop 1 (searchHit dbOne "q" 5)).2
               num_relevant_chunks := some (filterLoop 1 (searchHit dbOne "q" 5)).1.length
               confidence := none },
             { stIndexed with memory := stIndexed.memory ++
                 [( "q", llmConst (filterLoop 1 (searchHit dbOne "q" 5)).1 "q")] },
             [⟨(filterLoop 1 (searchHit dbOne "q" 5)).1, "q"⟩]) ∧
    (filterLoop 1 (searchHit dbOne "q" 5)).2.Nodup ∧
    (∀ s, s ∈ (filterLoop 1 (searchHit dbOne "q" 5)).2
        ↔ s ∈ (filterLoop 1 (searchHit dbOne "q" 5)).1.map ChunkRec.source)) :=
  ⟨rfl, by decide,
   answer_question_with_relevant searchHit llmConst stIndexed dbOne "q" 1 5 rfl (by decide)⟩

/-- Non-empty text shorter than the configured chunk size is returned as a
single chunk by the splitter. -/
theorem splitChunks_short (chunkSize overlap : Nat) (text : List Char)
    (hne : text ≠ []) (hlt : text.length < chunkSize) :
    splitChunks chunkSize overlap text = [text] := by
  have h1 : text.isEmpty = false := by simpa [List.isEmpty_iff] using hne
  simp [splitChunks, splitChunksFuel, h1, Nat.le_of_lt hlt]

/-- Claim C7: the chunker produces exactly one chunk (the whole text) on
non-empty text shorter than the configured chunk size, zero chunks on empty
text, and therefore `_split_and_add_text` on an empty document leaves the
store — and the whole state — unchanged. -/
theorem chunker_edge_cases (chunkSize overlap : Nat) (text : List Char)
    (st : AgentState) (source : String) :
    (text ≠ [] → text.length < chunkSize →
      splitChunks chunkSize overlap text = [text]) ∧
    splitChunks chunkSize overlap [] = [] ∧
    split_and_add_text chunkSize overlap st [] source = st := by
  refine ⟨fun hne hlt => splitChunks_short chunkSize overlap text hne hlt, rfl, ?_⟩
  simp [split_and_add_text, splitChunks, splitChunksFuel, mkRecords]

/-- Witness for C7: the two-character text "hi" with the default configuration
yields one chunk, the empty text yields none, and ingesting the empty text
changes nothing. -/
theorem chunker_edge_cases_witness :
    ['h', 'i'] ≠ ([] : List Char) ∧ (['h', 'i'] : List Char).length < 1000 ∧
    (splitChunks 1000 200 ['h', 'i'] = [['h', 'i']] ∧
    splitChunks 1000 200 [] = [] ∧
    split_and_add_text 1000 200 initialAgentState [] "a.txt" = initialAgentState) :=
  ⟨by decide, by decide,
   (chunker_edge_cases 1000 200 ['h', 'i'] initialAgentState "a.txt").1
     (by decide) (by decide),
   (chunker_edge_cases 1000 200 ['h', 'i'] initialAgentState "a.txt").2.1,
   (chunker_edge_cases 1000 200 [] initialAgentState "a.txt").2.2⟩

/- Helper lemmas about provenance of ingested chunks. -/

/-- Every record emitted by the enumeration loop carries the source it was
tagged with. -/
theorem mem_mkRecords_source (s : String) (i : Nat) (cs : List (List Char))
    (c : ChunkRec) (h : c ∈ mkRecords s i cs) : c.source = s := by
  induction cs generalizing i with
  | nil => simp [mkRecords] at h
  | cons hd tl ih =>
      simp only [mkRecords, List.mem_cons] at h
      rcases h with rfl | h2
      · rfl
      · exact ih (i + 1) h2

/-- Records emitted from start index `i` have chunk index at least `i`. -/
theorem mem_mkRecords_chunk_ge (s : String) (i : Nat) (cs : List (List Char))
    (c : ChunkRec) (h : c ∈ mkRecords s i cs) : i ≤ c.chunk := by
  induction cs generalizing i with
  | nil => simp [mkRecords] at h
  | cons hd tl ih =>
      simp only [mkRecords, List.mem_cons] at h
      rcases h with rfl | h2
      · exact Nat.le_refl i
      · exact Nat.le_trans (Nat.le_succ i) (ih (i + 1) h2)

/-- The provenance pairs of one enumeration batch are pairwise distinct. -/
theorem provPairs_mkRecords_nodup (s : String) (i : Nat) (cs : List (List Char)) :
    (provPairs (mkRecords s i cs)).Nodup := by
  induction cs generalizing i with
  | nil => simp [mkRecords, provPairs]
  | cons hd tl ih =>
      simp only [mkRecords, provPairs, List.map_cons]
      rw [List.nodup_cons]
      refine ⟨?_, ih (i + 1)⟩
      intro hmem
      rcases List.mem_map.1 hmem with ⟨c, hc, heq⟩
      have hge := mem_mkRecords_chunk_ge s (i + 1) tl c hc
      have : c.chunk = i := congrArg Prod.snd heq
      omega

/-- The chunk indices of one enumeration batch started at `i`. -/
theorem mkRecords_map_chunk (s : String) (cs : List (List Char)) (i : Nat) :
    (mkRecords s i cs).map ChunkRec.chunk = (List.range cs.length).map (· + i) := by
  induction cs generalizing i with
  | nil => simp [mkRecords]
  | cons hd tl ih =>
      simp only [mkRecords, List.map_cons, List.length_cons, List.range_succ_eq_map,
        List.map_map]
      rw [ih (i + 1)]
      refine congrArg₂ List.cons (Nat.zero_add i).symm ?_
      apply List.map_congr_left
      intro a _
      simp only [Function.comp_apply]
      omega

/-- Chunk indices of a batch started at zero form the contiguous range. -/
theorem mkRecords_map_chunk_zero (s : String) (cs : List (List Char)) :
    (mkRecords s 0 cs).map ChunkRec.chunk = List.range cs.length := by
  rw [mkRecords_map_chunk]
  simp

/-- One record per chunk. -/
theorem mkRecords_length (s : String) (i : Nat) (cs : List (List Char)) :
    (mkRecords s i cs).length = cs.length := by
  induction cs generalizing i with
  | nil => rfl
  | cons hd tl ih => simp [mkRecords, ih (i + 1)]

/-- Unfolding a sequence of `_split_and_add_text` calls: the store receives the
concatenated enumeration batches, one per ingested document, in order. -/
theorem ingest_documents_eq (chunkSize overlap : Nat)
    (docs : List (String × List Char)) (st : AgentState) :
    (docs.foldl (fun s p => split_and_add_text chunkSize overlap s p.2 p.1) st).documents
      = st.documents ++
        (docs.map (fun p => mkRecords p.1 0 (splitChunks chunkSize overlap p.2))).flatten := by
  induction docs generalizing st with
  | nil => simp
  | cons p rest ih =>
      rw [List.foldl_cons, ih]
      simp [split_and_add_text, List.append_assoc]

/-- Every chunk in the concatenated batches carries one of the ingested source
names. -/
theorem mem_ingest_source (chunkSize overlap : Nat)
    (docs : List (String × List Char)) (c : ChunkRec)
    (h : c ∈ (docs.map (fun p => mkRecords p.1 0 (splitChunks chunkSize overlap p.2))).flatten) :
    c.source ∈ docs.map Prod.fst := by
  induction docs with
  | nil => simp at h
  | cons p rest ih =>
      simp only [List.map_cons, List.flatten_cons, List.mem_append] at h
      rcases h with h1 | h2
      · exact List.mem_cons.2 (Or.inl (mem_mkRecords_source p.1 0 _ c h1))
      · exact List.mem_cons.2 (Or.inr (ih h2))

/-- With pairwise-distinct source names, the provenance pairs of the
concatenated batches are pairwise distinct. -/
theorem ingest_pairs_nodup (chunkSize overlap : Nat)
    (docs : List (String × List Char))
    (hnd : (docs.map Prod.fst).Nodup) :
    (provPairs
      (docs.map (fun p => mkRecords p.1 0 (splitChunks chunkSize overlap p.2))).flatten).Nodup := by
  induction docs with
  | nil => simp [provPairs]
  | cons p rest ih =>
      simp only [List.map_cons, List.nodup_cons] at hnd
      simp only [List.map_cons, List.flatten_cons, provPairs, List.map_append]
      rw [List.nodup_append]
      refine ⟨provPairs_mkRecords_nodup p.1 0 _, ih hnd.2, ?_⟩
      intro q hq1 hq2
      rcases List.mem_map.1 hq1 with ⟨c, hc, rfl⟩
      rcases List.mem_map.1 hq2 with ⟨d, hd, heq⟩
      have hcs : c.source = p.1 := mem_mkRecords_source p.1 0 _ c hc
      have hds : d.source ∈ rest.map Prod.fst := mem_ingest_source chunkSize overlap rest d hd
      have : d.source = c.source := congrArg Prod.fst heq
      rw [this, hcs] at hds
      exact hnd.1 hds

/-- Filtering one batch by its own source keeps everything. -/
theorem filter_mkRecords_eq_self (src : String) (i : Nat) (cs : List (List Char)) :
    (mkRecords src i cs).filter (fun c => c.source = src) = mkRecords src i cs :=
  List.filter_eq_self.2 fun c hc => by
    simp [mem_mkRecords_source src i cs c hc]

/-- Filtering one batch by a different source keeps nothing. -/
theorem filter_mkRecords_ne (src s : String) (hne : s ≠ src) (i : Nat)
    (cs : List (List Char)) :
    (mkRecords s i cs).filter (fun c => c.source = src) = [] :=
  List.filter_eq_nil_iff.2 fun c hc => by
    simp [mem_mkRecords_source s i cs c hc, hne]

/-- Filtering the concatenated batches by a source that was never ingested
keeps nothing. -/
theorem filter_ingest_not_mem (chunkSize overlap : Nat) (src : String)
    (docs : List (String × List Char)) (hns : src ∉ docs.map Prod.fst) :
    ((docs.map (fun p => mkRecords p.1 0 (splitChunks chunkSize overlap p.2))).flatten).filter
        (fun c => c.source = src) = [] :=
  List.filter_eq_nil_iff.2 fun c hc => by
    intro hsrc
    simp only [decide_eq_true_eq] at hsrc
    exact hns (hsrc ▸ mem_ingest_source chunkSize overlap docs c hc)

/-- With pairwise-distinct source names, the chunk indices of the records of
any fixed source form the contiguous zero-based range. -/
theorem ingest_filter_chunks (chunkSize overlap : Nat)
    (docs : List (String × List Char)) (hnd : (docs.map Prod.fst).Nodup) (src : String) :
    ((((docs.map (fun p => mkRecords p.1 0 (splitChunks chunkSize overlap p.2))).flatten).filter
        (fun c => c.source = src)).map ChunkRec.chunk)
      = List.range
          ((((docs.map (fun p => mkRecords p.1 0 (splitChunks chunkSize overlap p.2))).flatten).filter
            (fun c => c.source = src)).length) := by
  induction docs with
  | nil => simp
  | cons p rest ih =>
      simp only [List.map_cons, List.nodup_cons] at hnd
      simp only [List.map_cons, List.flatten_cons, List.filter_append]
      by_cases h : p.1 = src
      · subst h
        rw [filter_mkRecords_eq_self, filter_ingest_not_mem chunkSize overlap p.1 rest hnd.1]
        simp [mkRecords_map_chunk_zero, mkRecords_length]
      · rw [filter_mkRecords_ne src p.1 h]
        simpa using ih hnd.2

/-- Counterexample to claim C6 as stated: re-ingesting the text file "a.txt"
(content "hi", one chunk) under its already-present name appends a second
record with the same (source, index) pair ("a.txt", 0), so the store's
provenance pairs are not unique. -/
theorem reingest_duplicate_pairs :
    provPairs reingestState.documents = [( "a.txt", 0), ( "a.txt", 0)] ∧
    ¬ (provPairs reingestState.documents).Nodup := by
  constructor
  · rfl
  · intro h
    rw [show provPairs reingestState.documents
        = [( "a.txt", 0), ( "a.txt", 0)] from rfl] at h
    simp at h

/-- Claim C6 (amended): for any sequence of document ingestions with
pairwise-distinct source names, every chunk record in the store has a unique
(source, index) pair and the index values for each source form a contiguous
zero-based sequence; re-ingesting a document under a name already present
violates this (it duplicates that source's (source, index) pairs). -/
theorem ingest_distinct_provenance (chunkSize overlap : Nat)
    (docs : List (String × List Char)) (hnd : (docs.map Prod.fst).Nodup) :
    (provPairs (ingestTexts chunkSize overlap docs).documents).Nodup ∧
    ∀ src, (((ingestTexts chunkSize overlap docs).documents.filter
          (fun c => c.source = src)).map ChunkRec.chunk)
        = List.range (((ingestTexts chunkSize overlap docs).documents.filter
            (fun c => c.source = src)).length) := by
  have hdocs : (ingestTexts chunkSize overlap docs).documents
      = (docs.map (fun p => mkRecords p.1 0 (splitChunks chunkSize overlap p.2))).flatten := by
    rw [ingestTexts, ingest_documents_eq]
    rfl
  rw [hdocs]
  exact ⟨ingest_pairs_nodup chunkSize overlap docs hnd,
         fun src => ingest_filter_chunks chunkSize overlap docs hnd src⟩

/-- Witness for the amended C6: ingesting two one-character documents under the
distinct names "a" and "b" yields unique provenance pairs, and the indices for
source "a" are the contiguous range. -/
theorem ingest_distinct_provenance_witness :
    (([( "a", ['x']), ( "b", ['y'])] : List (String × List Char)).map Prod.fst).Nodup ∧
    (provPairs (ingestTexts 1000 200 [( "a", ['x']), ( "b", ['y'])]).documents).Nodup ∧
    (((ingestTexts 1000 200 [( "a", ['x']), ( "b", ['y'])]).documents.filter
        (fun c => c.source = "a")).map ChunkRec.chunk)
      = List.range (((ingestTexts 1000 200 [( "a", ['x']), ( "b", ['y'])]).documents.filter
          (fun c => c.source = "a")).length) :=
  ⟨by decide,
   (ingest_distinct_provenance 1000 200 [( "a", ['x']), ( "b", ['y'])] (by decide)).1,
   (ingest_distinct_provenance 1000 200 [( "a", ['x']), ( "b", ['y'])] (by decide)).2 "a"⟩
